import Mathlib

/-!
Shallow embedding of `src/webrender/src/scene.rs`.

The file models the three components of the scene module:

* `SceneProperties` — the animated-property store with its pending/current
  dual-state flush protocol (`set_properties`, `add_properties`,
  `flush_pending_updates`, `resolve_layout_transform`, `resolve_float`);
* `Scene` — the pipeline registry (`set_root_pipeline_id`,
  `set_display_list`, `remove_pipeline`, `update_epoch`,
  `has_root_pipeline`);
* the `StackingContextHelpers` extractors
  (`mix_blend_mode_for_compositing`, `filter_datas_for_compositing`).

External `api`-crate types (`PropertyBindingId`, `LayoutTransform`, `f32`
values, `LayoutSize`, `ColorF`, `BuiltDisplayList`, `PipelineId`, `Epoch`)
are opaque data for this module; they are modelled by concrete stand-in
types carrying decidable equality, matching the structural `PartialEq`
the source relies on.  `FastHashMap` is modelled extensionally as a
partial function from keys to values; `insert` overrides, `remove`
deletes, matching hash-map semantics.  A Rust `debug_assert!`/panic is
modelled by `Option`: `none` is the fatal invariant violation.
-/

namespace WebrenderScene

/-- Stand-in for `api::PropertyBindingId` (opaque unique identifier). -/
abbrev PropertyBindingId := Nat

/-- Stand-in for `api::PropertyBindingKey<T>`: carries the binding id
(the phantom type parameter of the Rust type is dropped). -/
structure PropertyBindingKey where
  id : PropertyBindingId
deriving DecidableEq, Repr

/-- Stand-in for `api::PropertyValue<V>`: a binding key paired with a value. -/
structure PropertyValue (V : Type) where
  key : PropertyBindingKey
  value : V
deriving DecidableEq, Repr

/-- Stand-in for `api::DynamicProperties`: ordered sequences of transform
and float property values, parametrised by the stand-in value types
`T` (for `LayoutTransform`) and `F` (for `f32`). -/
structure DynamicProperties (T F : Type) where
  transforms : List (PropertyValue T)
  floats : List (PropertyValue F)
deriving DecidableEq, Repr

/-- `DynamicProperties::default()`: both sequences empty. -/
def DynamicProperties.default (T F : Type) : DynamicProperties T F := ⟨[], []⟩

/-- Extensional model of `FastHashMap<K, V>`. -/
def FastHashMap (K V : Type) := K → Option V

/-- `FastHashMap::default()`: the empty map. -/
def FastHashMap.empty {K V : Type} : FastHashMap K V := fun _ => none

/-- `HashMap::insert`: later insertions override earlier ones. -/
def FastHashMap.insert {K V : Type} [DecidableEq K]
    (m : FastHashMap K V) (k : K) (v : V) : FastHashMap K V :=
  fun q => if q = k then some v else m q

/-- `HashMap::remove` (the returned old value is unused by the source). -/
def FastHashMap.remove {K V : Type} [DecidableEq K]
    (m : FastHashMap K V) (k : K) : FastHashMap K V :=
  fun q => if q = k then none else m q

/-- `HashMap::get`. -/
def FastHashMap.get {K V : Type} (m : FastHashMap K V) (k : K) : Option V := m k

/-- `HashMap::contains_key`. -/
def FastHashMap.contains_key {K V : Type} (m : FastHashMap K V) (k : K) : Bool :=
  (m k).isSome

/-- Stand-in for `api::PropertyBinding<V>`: either a literal value or a
binding key plus a fallback literal. -/
inductive PropertyBinding (V : Type) where
  | value : V → PropertyBinding V
  | binding : PropertyBindingKey → V → PropertyBinding V
deriving DecidableEq, Repr

/-- `SceneProperties` (scene.rs lines 17–22). -/
structure SceneProperties (T F : Type) where
  transform_properties : FastHashMap PropertyBindingId T
  float_properties : FastHashMap PropertyBindingId F
  current_properties : DynamicProperties T F
  pending_properties : Option (DynamicProperties T F)

variable {T F : Type}

/-- `SceneProperties::new` (lines 25–32). -/
def SceneProperties.new (T F : Type) : SceneProperties T F :=
  { transform_properties := FastHashMap.empty
    float_properties := FastHashMap.empty
    current_properties := DynamicProperties.default T F
    pending_properties := none }

/-- `SceneProperties::set_properties` (lines 35–37). -/
def SceneProperties.set_properties (s : SceneProperties T F)
    (properties : DynamicProperties T F) : SceneProperties T F :=
  { s with pending_properties := some properties }

/-- `SceneProperties::add_properties` (lines 40–49): take the pending set
(or the default if none), `extend` both vectors with the incoming
entries (Rust `Vec::extend` appends), and store it back. -/
def SceneProperties.add_properties (s : SceneProperties T F)
    (properties : DynamicProperties T F) : SceneProperties T F :=
  let pending := s.pending_properties.getD (DynamicProperties.default T F)
  { s with
    pending_properties := some
      { transforms := pending.transforms ++ properties.transforms
        floats := pending.floats ++ properties.floats } }

/-- The table-rebuild loops of `flush_pending_updates` (lines 67–75):
fold `insert` over the entries, starting from the cleared (empty) table. -/
def buildTable {V : Type} (entries : List (PropertyValue V)) :
    FastHashMap PropertyBindingId V :=
  entries.foldl (fun m p => m.insert p.key.id p.value) FastHashMap.empty

/-- `SceneProperties::flush_pending_updates` (lines 59–83).  Returns the
Rust return value paired with the updated store. -/
def SceneProperties.flush_pending_updates [DecidableEq T] [DecidableEq F]
    (s : SceneProperties T F) : Bool × SceneProperties T F :=
  match s.pending_properties with
  | none => (false, s)
  | some pending =>
      if pending = s.current_properties then
        (false, s)
      else
        (true,
         { transform_properties := buildTable pending.transforms
           float_properties := buildTable pending.floats
           current_properties := pending
           pending_properties := some pending })

/-- `SceneProperties::resolve_layout_transform` (lines 86–99). -/
def SceneProperties.resolve_layout_transform (s : SceneProperties T F)
    (property : PropertyBinding T) : T :=
  match property with
  | .value v => v
  | .binding key v => (s.transform_properties.get key.id).getD v

/-- `SceneProperties::resolve_float` (lines 102–115). -/
def SceneProperties.resolve_float (s : SceneProperties T F)
    (property : PropertyBinding F) : F :=
  match property with
  | .value v => v
  | .binding key v => (s.float_properties.get key.id).getD v

/-- The value a sequence of property entries associates to a binding id
once folded into a hash table: the LAST entry with that id wins
(insert order = iteration order of the vector). -/
def lookupLast {V : Type} : List (PropertyValue V) → PropertyBindingId → Option V
  | [], _ => none
  | p :: rest, i =>
      match lookupLast rest i with
      | some v => some v
      | none => if i = p.key.id then some p.value else none

theorem foldl_insert_get {V : Type} (l : List (PropertyValue V))
    (m : FastHashMap PropertyBindingId V) (i : PropertyBindingId) :
    (l.foldl (fun m p => m.insert p.key.id p.value) m) i =
      match lookupLast l i with
      | some v => some v
      | none => m i := by
  induction l generalizing m with
  | nil => simp [lookupLast]
  | cons p rest ih =>
      simp only [List.foldl_cons, lookupLast]
      rw [ih]
      cases lookupLast rest i with
      | some v => simp
      | none =>
          simp only [FastHashMap.insert]
          by_cases h : i = p.key.id <;> simp [h]

theorem buildTable_get {V : Type} (l : List (PropertyValue V))
    (i : PropertyBindingId) : (buildTable l).get i = lookupLast l i := by
  show (l.foldl (fun m p => m.insert p.key.id p.value) FastHashMap.empty) i = _
  rw [foldl_insert_get]
  cases lookupLast l i <;> simp [FastHashMap.empty]

theorem lookupLast_append {V : Type} (a b : List (PropertyValue V))
    (i : PropertyBindingId) :
    lookupLast (a ++ b) i =
      match lookupLast b i with
      | some v => some v
      | none => lookupLast a i := by
  induction a with
  | nil => cases h : lookupLast b i <;> simp [lookupLast, h]
  | cons p rest ih =>
      simp only [List.cons_append, lookupLast, List.append_eq]
      rw [ih]
      cases h : lookupLast b i <;> cases h2 : lookupLast rest i <;> simp [h, h2]

/-- Stand-in for `api::units::LayoutSize` (opaque layout metadata). -/
structure LayoutSize where
  width : Int
  height : Int
deriving DecidableEq, Repr

/-- Stand-in for `api::ColorF` (opaque colour; scalar components are
modelled by the integer stand-in used for all external scalars). -/
structure ColorF where
  r : Int
  g : Int
  b : Int
  a : Int
deriving DecidableEq, Repr

/-- Stand-in for `api::BuiltDisplayList` (opaque encoded content). -/
structure BuiltDisplayList where
  data : List Nat
deriving DecidableEq, Repr

/-- Stand-in for `api::Epoch` (a version counter). -/
abbrev Epoch := Nat

/-- Stand-in for `api::PipelineId` (a pair of numeric identifiers). -/
abbrev PipelineId := Nat × Nat

/-- `ScenePipeline` (scene.rs lines 126–132).  The `Arc` sharing wrapper
is immaterial to the state semantics and is dropped. -/
structure ScenePipeline where
  pipeline_id : PipelineId
  viewport_size : LayoutSize
  content_size : LayoutSize
  background_color : Option ColorF
  display_list : BuiltDisplayList
deriving DecidableEq, Repr

/-- `Scene` (scene.rs lines 138–142). -/
structure Scene where
  root_pipeline_id : Option PipelineId
  pipelines : FastHashMap PipelineId ScenePipeline
  pipeline_epochs : FastHashMap PipelineId Epoch

/-- `Scene::new` (lines 145–151). -/
def Scene.new : Scene :=
  { root_pipeline_id := none
    pipelines := FastHashMap.empty
    pipeline_epochs := FastHashMap.empty }

/-- `Scene::set_root_pipeline_id` (lines 153–155). -/
def Scene.set_root_pipeline_id (s : Scene) (pipeline_id : PipelineId) : Scene :=
  { s with root_pipeline_id := some pipeline_id }

/-- `Scene::set_display_list` (lines 157–176): builds a fresh
`ScenePipeline` from the arguments and inserts it and the epoch. -/
def Scene.set_display_list (s : Scene) (pipeline_id : PipelineId)
    (epoch : Epoch) (display_list : BuiltDisplayList)
    (background_color : Option ColorF)
    (viewport_size content_size : LayoutSize) : Scene :=
  { s with
    pipelines := s.pipelines.insert pipeline_id
      { pipeline_id := pipeline_id
        viewport_size := viewport_size
        content_size := content_size
        background_color := background_color
        display_list := display_list }
    pipeline_epochs := s.pipeline_epochs.insert pipeline_id epoch }

/-- `Scene::remove_pipeline` (lines 178–184). -/
def Scene.remove_pipeline (s : Scene) (pipeline_id : PipelineId) : Scene :=
  { root_pipeline_id :=
      if s.root_pipeline_id = some pipeline_id then none else s.root_pipeline_id
    pipelines := s.pipelines.remove pipeline_id
    pipeline_epochs := s.pipeline_epochs.remove pipeline_id }

/-- `Scene::update_epoch` (lines 186–188): unconditional insert. -/
def Scene.update_epoch (s : Scene) (pipeline_id : PipelineId)
    (epoch : Epoch) : Scene :=
  { s with pipeline_epochs := s.pipeline_epochs.insert pipeline_id epoch }

/-- `Scene::has_root_pipeline` (lines 190–196). -/
def Scene.has_root_pipeline (s : Scene) : Bool :=
  match s.root_pipeline_id with
  | some root_id => s.pipelines.contains_key root_id
  | none => false

/-- One mutating registry call, for stating reachability over call
sequences. -/
inductive SceneOp where
  | setRoot (pipeline_id : PipelineId)
  | setDisplayList (pipeline_id : PipelineId) (epoch : Epoch)
      (display_list : BuiltDisplayList) (background_color : Option ColorF)
      (viewport_size content_size : LayoutSize)
  | removePipeline (pipeline_id : PipelineId)
  | updateEpoch (pipeline_id : PipelineId) (epoch : Epoch)

/-- Apply one registry call to a scene. -/
def applyOp (s : Scene) : SceneOp → Scene
  | .setRoot pid => s.set_root_pipeline_id pid
  | .setDisplayList pid e dl bg vs cs => s.set_display_list pid e dl bg vs cs
  | .removePipeline pid => s.remove_pipeline pid
  | .updateEpoch pid e => s.update_epoch pid e

/-- The scene reached from `Scene::new` by a sequence of calls. -/
def applyOps (ops : List SceneOp) : Scene := ops.foldl applyOp Scene.new

/-- Stand-in for `api::MixBlendMode` (all variants of the wire enum). -/
inductive MixBlendMode where
  | Normal
  | Multiply
  | Screen
  | Overlay
  | Darken
  | Lighten
  | ColorDodge
  | ColorBurn
  | HardLight
  | SoftLight
  | Difference
  | Exclusion
  | Hue
  | Saturation
  | Color
  | Luminosity
deriving DecidableEq, Repr

/-- Stand-in for `api::StackingContext`: only the `mix_blend_mode` field
is read by this module; the remaining fields of the external type are
opaque and omitted. -/
structure StackingContext where
  mix_blend_mode : MixBlendMode
deriving DecidableEq, Repr

/-- `StackingContextHelpers::mix_blend_mode_for_compositing`
(scene.rs lines 216–221). -/
def StackingContext.mix_blend_mode_for_compositing
    (sc : StackingContext) : Option MixBlendMode :=
  match sc.mix_blend_mode with
  | .Normal => none
  | m => some m

/-- Stand-in for `api::ComponentTransferFuncType`. -/
inductive ComponentTransferFuncType where
  | Identity
  | Table
  | Discrete
  | Linear
  | Gamma
deriving DecidableEq, Repr

/-- Stand-in for `api::TempFilterData`: the per-record iterators
(`func_types`, `r_values`, …) are modelled as the lists they yield;
scalar table values use the integer stand-in. -/
structure TempFilterData where
  func_types : List ComponentTransferFuncType
  r_values : List Int
  g_values : List Int
  b_values : List Int
  a_values : List Int
deriving DecidableEq, Repr

/-- Stand-in for `api::FilterData`, field-for-field. -/
structure FilterData where
  func_r_type : ComponentTransferFuncType
  r_values : List Int
  func_g_type : ComponentTransferFuncType
  g_values : List Int
  func_b_type : ComponentTransferFuncType
  b_values : List Int
  func_a_type : ComponentTransferFuncType
  a_values : List Int
deriving DecidableEq, Repr

/-- The per-record body of `filter_datas_for_compositing`
(scene.rs lines 245–257): collect the func types, check the asserted
arity (`debug_assert!(func_types.len() == 4)` and the `func_types[0..3]`
indexing both require it), and build the `FilterData`.  The fatal
assertion/panic is modelled as `none`. -/
def decodeTempFilterData (t : TempFilterData) : Option FilterData :=
  if t.func_types.length = 4 then
    some
      { func_r_type := (t.func_types[0]?).getD .Identity
        r_values := t.r_values
        func_g_type := (t.func_types[1]?).getD .Identity
        g_values := t.g_values
        func_b_type := (t.func_types[2]?).getD .Identity
        b_values := t.b_values
        func_a_type := (t.func_types[3]?).getD .Identity
        a_values := t.a_values }
  else none

/-- `StackingContextHelpers::filter_datas_for_compositing`
(scene.rs lines 237–260): the loop over the input records; a fatal
invariant violation in any record aborts the whole call (`none`). -/
def filter_datas_for_compositing :
    List TempFilterData → Option (List FilterData)
  | [] => some []
  | t :: rest =>
      match decodeTempFilterData t with
      | none => none
      | some fd =>
          match filter_datas_for_compositing rest with
          | none => none
          | some fds => some (fd :: fds)

/-- A concrete property set used to instantiate the store theorems. -/
def exampleProps : DynamicProperties Int Int :=
  { transforms := [], floats := [{ key := ⟨0⟩, value := 5 }] }

/-- A concrete store with `exampleProps` staged as pending. -/
def exampleStore : SceneProperties Int Int :=
  (SceneProperties.new Int Int).set_properties exampleProps

/-- The concrete store after one flush. -/
def exampleFlushed : SceneProperties Int Int :=
  (exampleStore.flush_pending_updates).2

/-- C1: `flush_pending_updates` compares the pending set to the current
set by full structural equality; if equal it returns `false` with the
state unchanged, and if different it returns `true`, rebuilds the
transform and float lookup tables from the pending entries (last entry
per id wins, matching insertion order), and installs the pending set as
current. -/
theorem flush_pending_updates_spec {T F : Type} [DecidableEq T] [DecidableEq F]
    (s : SceneProperties T F) (p : DynamicProperties T F)
    (hp : s.pending_properties = some p) :
    (p = s.current_properties → s.flush_pending_updates = (false, s)) ∧
    (p ≠ s.current_properties →
      (s.flush_pending_updates).1 = true ∧
      (s.flush_pending_updates).2.current_properties = p ∧
      (s.flush_pending_updates).2.pending_properties = some p ∧
      (∀ i, (s.flush_pending_updates).2.transform_properties.get i =
        lookupLast p.transforms i) ∧
      (∀ i, (s.flush_pending_updates).2.float_properties.get i =
        lookupLast p.floats i)) := by
  constructor
  · intro he
    simp [SceneProperties.flush_pending_updates, hp, he]
  · intro hne
    simp [SceneProperties.flush_pending_updates, hp, hne, buildTable_get]

/-- Witness for C1 at a concrete store whose pending set differs from the
current (empty) set. -/
theorem flush_pending_updates_spec_witness :
    (exampleStore.flush_pending_updates).1 = true ∧
    (exampleStore.flush_pending_updates).2.current_properties = exampleProps := by
  have h := flush_pending_updates_spec exampleStore exampleProps rfl
  have hne : exampleProps ≠ exampleStore.current_properties := by decide
  exact ⟨(h.2 hne).1, (h.2 hne).2.1⟩

/-- C5: flushing twice with no intervening `set_properties` or
`add_properties` yields `false` ("unchanged") the second time, and a
flush never clears the pending slot. -/
theorem flush_twice_unchanged {T F : Type} [DecidableEq T] [DecidableEq F]
    (s : SceneProperties T F) :
    ((s.flush_pending_updates).2.flush_pending_updates).1 = false ∧
    (s.flush_pending_updates).2.pending_properties = s.pending_properties := by
  cases hp : s.pending_properties with
  | none => simp [SceneProperties.flush_pending_updates, hp]
  | some p =>
      by_cases he : p = s.current_properties
      · simp [SceneProperties.flush_pending_updates, hp, he]
      · simp [SceneProperties.flush_pending_updates, hp, he]

/-- C10: when nothing is pending, `flush_pending_updates` returns `false`
and leaves every field of the store unchanged. -/
theorem flush_empty_pending_noop {T F : Type} [DecidableEq T] [DecidableEq F]
    (s : SceneProperties T F) (h : s.pending_properties = none) :
    s.flush_pending_updates = (false, s) := by
  simp [SceneProperties.flush_pending_updates, h]

/-- Witness for C10 at the freshly constructed store. -/
theorem flush_empty_pending_noop_witness :
    (SceneProperties.new Int Int).flush_pending_updates =
      (false, SceneProperties.new Int Int) :=
  flush_empty_pending_noop (SceneProperties.new Int Int) rfl

/-- C6: resolution never fails — a literal binding resolves to its
literal, and a reference binding resolves to the current table value for
its identity when present and to the supplied fallback otherwise, for
both transforms and floats. -/
theorem resolve_spec {T F : Type} (s : SceneProperties T F) :
    (∀ v : T, s.resolve_layout_transform (.value v) = v) ∧
    (∀ (key : PropertyBindingKey) (fb : T),
      (∀ v, s.transform_properties.get key.id = some v →
        s.resolve_layout_transform (.binding key fb) = v) ∧
      (s.transform_properties.get key.id = none →
        s.resolve_layout_transform (.binding key fb) = fb)) ∧
    (∀ v : F, s.resolve_float (.value v) = v) ∧
    (∀ (key : PropertyBindingKey) (fb : F),
      (∀ v, s.float_properties.get key.id = some v →
        s.resolve_float (.binding key fb) = v) ∧
      (s.float_properties.get key.id = none →
        s.resolve_float (.binding key fb) = fb)) := by
  refine ⟨fun v => rfl, fun key fb => ⟨fun v h => ?_, fun h => ?_⟩,
    fun v => rfl, fun key fb => ⟨fun v h => ?_, fun h => ?_⟩⟩ <;>
    simp [SceneProperties.resolve_layout_transform,
      SceneProperties.resolve_float, h]

/-- Witness for C6: on the flushed concrete store, the bound identity
resolves to its flushed value, an unknown identity resolves to the
fallback, and likewise on the (empty) transform side. -/
theorem resolve_spec_witness :
    exampleFlushed.resolve_float (.binding ⟨0⟩ 9) = 5 ∧
    exampleFlushed.resolve_float (.binding ⟨1⟩ 9) = 9 ∧
    exampleFlushed.resolve_layout_transform (.binding ⟨0⟩ 7) = 7 := by
  refine ⟨?_, ?_, ?_⟩
  · exact ((resolve_spec exampleFlushed).2.2.2 ⟨0⟩ 9).1 5 (by decide)
  · exact ((resolve_spec exampleFlushed).2.2.2 ⟨1⟩ 9).2 (by decide)
  · exact ((resolve_spec exampleFlushed).2.1 ⟨0⟩ 7).2 (by decide)

/-- C2: `add_properties` merges at entry granularity — on the pending set
that results, the value looked up for a binding id (the value the flush
tables would install, last entry winning) is the incoming set's value
for every id the incoming set mentions, and the previous pending value
(starting from the empty default when nothing was pending) for every
other id; concretely, add A:=1 then add A:=2 then flush resolves A to 2. -/
theorem add_properties_merge {T F : Type} (s : SceneProperties T F)
    (properties : DynamicProperties T F) :
    (∃ q, (s.add_properties properties).pending_properties = some q ∧
      (∀ i, lookupLast q.transforms i =
        match lookupLast properties.transforms i with
        | some v => some v
        | none =>
            lookupLast
              (s.pending_properties.getD
                (DynamicProperties.default T F)).transforms i) ∧
      (∀ i, lookupLast q.floats i =
        match lookupLast properties.floats i with
        | some v => some v
        | none =>
            lookupLast
              (s.pending_properties.getD
                (DynamicProperties.default T F)).floats i)) ∧
    ((((SceneProperties.new Int Int).add_properties
        { transforms := [], floats := [{ key := ⟨0⟩, value := 1 }] }).add_properties
        { transforms := [], floats := [{ key := ⟨0⟩, value := 2 }] }).flush_pending_updates).2.resolve_float
      (.binding ⟨0⟩ 0) = 2 := by
  refine ⟨⟨_, rfl, fun i => ?_, fun i => ?_⟩, by decide⟩
  · exact lookupLast_append _ _ i
  · exact lookupLast_append _ _ i

/-- Every pipeline with a content entry also has an epoch entry. -/
def EpochCoverage (s : Scene) : Prop :=
  ∀ pid, ((s.pipelines.get pid).isSome = true →
    (s.pipeline_epochs.get pid).isSome = true)

theorem applyOp_epoch_coverage (s : Scene) (op : SceneOp)
    (h : EpochCoverage s) : EpochCoverage (applyOp s op) := by
  cases op with
  | setRoot pid => exact h
  | setDisplayList pid e dl bg vs cs =>
      intro q hq
      by_cases hqp : q = pid <;>
        simp_all [applyOp, Scene.set_display_list, FastHashMap.get,
          FastHashMap.insert, EpochCoverage]
  | removePipeline pid =>
      intro q hq
      by_cases hqp : q = pid <;>
        simp_all [applyOp, Scene.remove_pipeline, FastHashMap.get,
          FastHashMap.remove, EpochCoverage]
  | updateEpoch pid e =>
      intro q hq
      by_cases hqp : q = pid <;>
        simp_all [applyOp, Scene.update_epoch, FastHashMap.get,
          FastHashMap.insert, EpochCoverage]

theorem foldl_epoch_coverage (ops : List SceneOp) (s : Scene)
    (h : EpochCoverage s) : EpochCoverage (ops.foldl applyOp s) := by
  induction ops generalizing s with
  | nil => exact h
  | cons op rest ih => exact ih _ (applyOp_epoch_coverage s op h)

/-- C3 counterexample: from a fresh registry, a single
`update_epoch((0,0), 1)` call creates an epoch entry for an identifier
that has no content entry, so the two maps do not always have the same
key set. -/
theorem epoch_invariant_counterexample :
    ((applyOps [SceneOp.updateEpoch (0, 0) 1]).pipeline_epochs.get
      (0, 0)).isSome = true ∧
    ((applyOps [SceneOp.updateEpoch (0, 0) 1]).pipelines.get
      (0, 0)).isSome = false := by
  decide

/-- C3 (amended): for every scene reachable from a fresh registry by any
sequence of `set_root_pipeline_id`, `set_display_list`,
`remove_pipeline` and `update_epoch` calls, an identifier with a content
entry always has an epoch entry (the converse direction fails, since
`update_epoch` inserts unconditionally). -/
theorem reachable_epoch_coverage (ops : List SceneOp) (pid : PipelineId)
    (h : ((applyOps ops).pipelines.get pid).isSome = true) :
    ((applyOps ops).pipeline_epochs.get pid).isSome = true := by
  refine foldl_epoch_coverage ops Scene.new ?_ pid h
  intro q hq
  simp [Scene.new, FastHashMap.get, FastHashMap.empty] at hq

/-- Witness for C3 (amended) after one `set_display_list` call. -/
theorem reachable_epoch_coverage_witness :
    ((applyOps [SceneOp.setDisplayList (0, 0) 1 ⟨[]⟩ none ⟨0, 0⟩ ⟨0, 0⟩]).pipeline_epochs.get
      (0, 0)).isSome = true :=
  reachable_epoch_coverage
    [SceneOp.setDisplayList (0, 0) 1 ⟨[]⟩ none ⟨0, 0⟩ ⟨0, 0⟩] (0, 0)
    (by decide)

/-- C4 counterexample: on a fresh registry, the identifier `(0,0)` has no
entry in either map, yet `update_epoch((0,0), 1)` changes the state by
inserting an epoch entry; and with the root reference set to the
still-absent `(0,0)`, `remove_pipeline((0,0))` changes the state by
clearing the root reference. -/
theorem unknown_pipeline_noop_counterexample :
    Scene.new.pipeline_epochs.get (0, 0) = none ∧
    Scene.new.pipelines.get (0, 0) = none ∧
    (Scene.new.update_epoch (0, 0) 1).pipeline_epochs.get (0, 0) = some 1 ∧
    (Scene.new.set_root_pipeline_id (0, 0)).pipelines.get (0, 0) = none ∧
    (Scene.new.set_root_pipeline_id (0, 0)).pipeline_epochs.get (0, 0) = none ∧
    (Scene.new.set_root_pipeline_id (0, 0)).root_pipeline_id = some (0, 0) ∧
    ((Scene.new.set_root_pipeline_id (0, 0)).remove_pipeline (0, 0)).root_pipeline_id =
      none := by
  decide

/-- C4 (amended): both calls return normally on an identifier with no
entry in either map; `remove_pipeline` leaves both maps unchanged and
clears the root reference exactly when it pointed at that identifier,
while `update_epoch` inserts the given epoch for the identifier (a state
change), leaving all other epoch entries, the content map and the root
reference unchanged. -/
theorem unknown_pipeline_ops_spec (s : Scene) (pid : PipelineId)
    (hp : s.pipelines.get pid = none)
    (he : s.pipeline_epochs.get pid = none) :
    ((∀ q, (s.remove_pipeline pid).pipelines.get q = s.pipelines.get q) ∧
     (∀ q, (s.remove_pipeline pid).pipeline_epochs.get q =
       s.pipeline_epochs.get q) ∧
     (s.remove_pipeline pid).root_pipeline_id =
       (if s.root_pipeline_id = some pid then none else s.root_pipeline_id)) ∧
    (∀ e : Epoch,
      (s.update_epoch pid e).pipeline_epochs.get pid = some e ∧
      (∀ q, q ≠ pid → (s.update_epoch pid e).pipeline_epochs.get q =
        s.pipeline_epochs.get q) ∧
      (s.update_epoch pid e).pipelines = s.pipelines ∧
      (s.update_epoch pid e).root_pipeline_id = s.root_pipeline_id) := by
  refine ⟨⟨fun q => ?_, fun q => ?_, rfl⟩,
    fun e => ⟨?_, fun q hq => ?_, rfl, rfl⟩⟩
  · by_cases hqp : q = pid <;>
      simp_all [Scene.remove_pipeline, FastHashMap.get, FastHashMap.remove]
  · by_cases hqp : q = pid <;>
      simp_all [Scene.remove_pipeline, FastHashMap.get, FastHashMap.remove]
  · simp [Scene.update_epoch, FastHashMap.get, FastHashMap.insert]
  · simp [Scene.update_epoch, FastHashMap.get, FastHashMap.insert, hq]

/-- Witness for C4 (amended) on the fresh registry and identifier
`(0,0)`. -/
theorem unknown_pipeline_ops_spec_witness :
    (Scene.new.remove_pipeline (0, 0)).pipelines.get (0, 0) =
      Scene.new.pipelines.get (0, 0) ∧
    (Scene.new.update_epoch (0, 0) 3).pipeline_epochs.get (0, 0) = some 3 := by
  have h := unknown_pipeline_ops_spec Scene.new (0, 0) rfl rfl
  exact ⟨h.1.1 (0, 0), (h.2 3).1⟩

/-- C7: `has_root_pipeline` is true exactly when a root identifier is set
and carries a content entry, and removing the identifier currently
referenced as root clears the root reference, so `has_root_pipeline`
becomes false afterwards. -/
theorem has_root_pipeline_spec (s : Scene) :
    (s.has_root_pipeline = true ↔
      ∃ pid, s.root_pipeline_id = some pid ∧
        (s.pipelines.get pid).isSome = true) ∧
    (∀ pid, s.root_pipeline_id = some pid →
      (s.remove_pipeline pid).root_pipeline_id = none ∧
      (s.remove_pipeline pid).has_root_pipeline = false) := by
  constructor
  · cases hr : s.root_pipeline_id with
    | none => simp [Scene.has_root_pipeline, hr]
    | some r =>
        simp [Scene.has_root_pipeline, hr, FastHashMap.contains_key,
          FastHashMap.get]
  · intro pid h
    constructor
    · simp [Scene.remove_pipeline, h]
    · simp [Scene.remove_pipeline, Scene.has_root_pipeline, h]

/-- A concrete registry holding pipeline `(0,0)` as root. -/
def exampleScene : Scene :=
  (Scene.new.set_display_list (0, 0) 1 ⟨[]⟩ none ⟨0, 0⟩ ⟨0, 0⟩).set_root_pipeline_id
    (0, 0)

/-- Witness for C7 on the concrete registry. -/
theorem has_root_pipeline_spec_witness :
    exampleScene.has_root_pipeline = true ∧
    (exampleScene.remove_pipeline (0, 0)).root_pipeline_id = none ∧
    (exampleScene.remove_pipeline (0, 0)).has_root_pipeline = false := by
  refine ⟨?_, ?_, ?_⟩
  · exact (has_root_pipeline_spec exampleScene).1.mpr ⟨(0, 0), rfl, by decide⟩
  · exact ((has_root_pipeline_spec exampleScene).2 (0, 0) rfl).1
  · exact ((has_root_pipeline_spec exampleScene).2 (0, 0) rfl).2

/-- The decoding applied to a conforming filter-data record: each
component's function type (in red, green, blue, alpha order) together
with its ordered value table. -/
def decodedFilterData (t : TempFilterData) : FilterData :=
  { func_r_type := (t.func_types[0]?).getD .Identity
    r_values := t.r_values
    func_g_type := (t.func_types[1]?).getD .Identity
    g_values := t.g_values
    func_b_type := (t.func_types[2]?).getD .Identity
    b_values := t.b_values
    func_a_type := (t.func_types[3]?).getD .Identity
    a_values := t.a_values }

/-- C8: `filter_datas_for_compositing` requires exactly four
component-transfer function types per record — any record with fewer
than four aborts the whole call with a fatal invariant violation
(modelled `none`), never a silent partial result — and decodes every
conforming record into the internal representation with each
component's function type and ordered value table, in red, green, blue,
alpha order. -/
theorem filter_datas_spec :
    (∀ (l : List TempFilterData) (t : TempFilterData), t ∈ l →
      t.func_types.length < 4 → filter_datas_for_compositing l = none) ∧
    (∀ l : List TempFilterData, (∀ t ∈ l, t.func_types.length = 4) →
      filter_datas_for_compositing l = some (l.map decodedFilterData)) := by
  constructor
  · intro l t hmem hlen
    induction l with
    | nil => cases hmem
    | cons hd rest ih =>
        rcases List.mem_cons.mp hmem with hhd | htl
        · subst hhd
          have hne : ¬ t.func_types.length = 4 := by omega
          simp [filter_datas_for_compositing, decodeTempFilterData, hne]
        · rw [filter_datas_for_compositing]
          rw [ih htl]
          cases decodeTempFilterData hd <;> simp
  · intro l hall
    induction l with
    | nil => simp [filter_datas_for_compositing]
    | cons hd rest ih =>
        have hhd : hd.func_types.length = 4 := hall hd (List.mem_cons_self hd rest)
        have hrest := ih (fun t ht => hall t (List.mem_cons_of_mem hd ht))
        rw [filter_datas_for_compositing]
        simp [decodeTempFilterData, hhd, hrest, decodedFilterData]

/-- A malformed filter-data record: only one component entry. -/
def badFilterRecord : TempFilterData :=
  { func_types := [.Identity]
    r_values := [], g_values := [], b_values := [], a_values := [] }

/-- A conforming filter-data record: four component entries. -/
def goodFilterRecord : TempFilterData :=
  { func_types := [.Identity, .Table, .Linear, .Gamma]
    r_values := [1], g_values := [2], b_values := [3], a_values := [4] }

/-- Witness for C8 on concrete records. -/
theorem filter_datas_spec_witness :
    filter_datas_for_compositing [badFilterRecord] = none ∧
    filter_datas_for_compositing [goodFilterRecord] =
      some ([goodFilterRecord].map decodedFilterData) := by
  constructor
  · exact filter_datas_spec.1 [badFilterRecord] badFilterRecord
      (List.mem_singleton.mpr rfl) (by decide)
  · exact filter_datas_spec.2 [goodFilterRecord] (by decide)

/-- C9: `mix_blend_mode_for_compositing` maps the `Normal` blend mode to
`none` (no blend effect) and every other blend mode to itself,
unchanged. -/
theorem mix_blend_mode_spec (sc : StackingContext) :
    (sc.mix_blend_mode = .Normal →
      sc.mix_blend_mode_for_compositing = none) ∧
    (sc.mix_blend_mode ≠ .Normal →
      sc.mix_blend_mode_for_compositing = some sc.mix_blend_mode) := by
  cases sc with
  | mk m => cases m <;> simp [StackingContext.mix_blend_mode_for_compositing]

/-- Witness for C9 on the `Normal` and `Multiply` modes. -/
theorem mix_blend_mode_spec_witness :
    StackingContext.mix_blend_mode_for_compositing ⟨.Normal⟩ = none ∧
    StackingContext.mix_blend_mode_for_compositing ⟨.Multiply⟩ = some .Multiply :=
  ⟨(mix_blend_mode_spec ⟨.Normal⟩).1 rfl,
   (mix_blend_mode_spec ⟨.Multiply⟩).2 (by decide)⟩

end WebrenderScene
